import Mathlib

/-!
Shallow embedding of `src/espcam/appfinal.py`: the hands-up detection
pipeline (frame slot, worker, heuristic, alert dispatch, latest-frame
endpoint), with theorems settling the specification claims.

Python floats are modelled as rationals; frames are modelled as an image
shape, pixel data, and the list of skeleton overlays drawn onto them;
external collaborators (image codec, pose estimator, SMTP, Twilio) are
modelled as parameters or injective wrappers, matching the spec's
"external collaborator" designation.
-/

namespace Espcam

/-- A mediapipe landmark: normalized position plus visibility score. -/
structure Landmark where
  x : ℚ
  y : ℚ
  visibility : ℚ
deriving DecidableEq

/-- The four landmarks read by `process_frame` (lines 110-111). -/
structure Pose where
  left_wrist : Landmark
  right_wrist : Landmark
  left_shoulder : Landmark
  right_shoulder : Landmark
deriving DecidableEq

/-- Python's built-in `abs` on a rational. -/
def ratAbs (q : ℚ) : ℚ := if q < 0 then -q else q

theorem ratAbs_eq_abs (q : ℚ) : ratAbs q = |q| := by
  by_cases h : q < 0
  · simp [ratAbs, h, abs_of_neg h]
  · simp [ratAbs, h, abs_of_nonneg (not_lt.mp h)]

/-- The hands-up heuristic of `process_frame` (lines 117-119):
`margin = 0.2 * abs(shoulder.y - wrist.y)` per side, and
`hands_up = (lw.y + margin_left < ls.y) and (rw.y + margin_right < rs.y)`. -/
def hands_up (p : Pose) : Bool :=
  decide (p.left_wrist.y + 2/10 * ratAbs (p.left_shoulder.y - p.left_wrist.y) < p.left_shoulder.y)
  && decide (p.right_wrist.y + 2/10 * ratAbs (p.right_shoulder.y - p.right_wrist.y) < p.right_shoulder.y)

/-- A decoded image: shape, pixel data, and the skeleton overlays that
`drawer.draw_landmarks` has painted onto it (none for a raw frame). -/
structure Frame where
  height : Nat
  width : Nat
  channels : Nat
  data : List Nat
  overlays : List Pose
deriving DecidableEq

/-- `drawer.draw_landmarks(frame, results.pose_landmarks, ...)` (line 123):
paints the detected pose onto the frame in place. -/
def drawSkeleton (f : Frame) (p : Pose) : Frame :=
  { f with overlays := f.overlays ++ [p] }

/-- `np.zeros((480, 640, 3), dtype=np.uint8)` (line 40). -/
def zeroFrame : Frame :=
  ⟨480, 640, 3, List.replicate (480 * 640 * 3) 0, []⟩

/-- Outcome of `pose.process(image_rgb)` (line 102): the call can raise an
exception (`fault`), return no landmarks (`notFound`), or return landmarks. -/
inductive EstimatorResult where
  | fault : EstimatorResult
  | notFound : EstimatorResult
  | found : Pose → EstimatorResult
deriving DecidableEq

/-- An alert thread spawned by `process_frame` (lines 129-130): one
`send_email(frame_path)` thread carrying the saved file's timestamp, and one
`send_sms()` thread. -/
inductive AlertTask where
  | email : Nat → AlertTask
  | sms : AlertTask
deriving DecidableEq

/-- What one run of `process_frame` does after the initial `cv2.imwrite`:
the frame stored into `latest_frame`, the heuristic value when evaluated
(none when no pose is found), and the alert threads spawned. -/
structure ProcOut where
  latest : Frame
  heuristicEval : Option Bool
  alertsSpawned : List AlertTask
deriving DecidableEq

/-- `process_frame(frame)` (lines 95-130), with the estimator call modelled
as an input. First component: the `cv2.imwrite` of the frame to
`upload/frame_{ts}.jpg` (line 99), which happens before the estimator runs.
Second component: `.error` when `pose.process` raises (nothing in
`process_frame` catches it), otherwise the effects of the rest of the body. -/
def process_frame (f : Frame) (ts : Nat) (est : EstimatorResult) :
    (Nat × Frame) × Except Unit ProcOut :=
  ((ts, f),
    match est with
    | .fault => .error ()
    | .notFound => .ok ⟨f, none, []⟩
    | .found p =>
        let hu := hands_up p
        .ok ⟨drawSkeleton f p, some hu, if hu then [.email ts, .sms] else []⟩)

/-- The shared mutable state of the pipeline plus the event logs of its
external writes: `latest_frame_to_process` (the frame slot),
`latest_frame` (the latest frame store), the ordered log of `cv2.imwrite`
calls into `UPLOAD_FOLDER`, and the ordered log of alert threads started. -/
structure SysState where
  slot : Option Frame
  latest : Frame
  saved : List (Nat × Frame)
  alerts : List AlertTask
deriving DecidableEq

/-- Module initialization (lines 40-41): `latest_frame` is a zero-filled
480x640x3 frame and `latest_frame_to_process` is `None`. -/
def initState : SysState := ⟨none, zeroFrame, [], []⟩

/-- The frame slot publish of `upload` (line 165):
`latest_frame_to_process = frame.copy()` under `frame_lock` — the new frame
unconditionally replaces whatever was pending. -/
def publish (_slot : Option Frame) (f : Frame) : Option Frame := some f

/-- The frame slot take of `frame_worker` (lines 136-139): if a frame is
pending, return it and clear the slot; otherwise report empty. -/
def takeIfPresent (slot : Option Frame) : Option Frame × Option Frame :=
  match slot with
  | some f => (some f, none)
  | none => (none, none)

/-- The `/upload` route (lines 157-170), with the `cv2.imdecode` result
modelled as an input: `none` when decoding fails (or the body raises, which
the handler catches), `some f` for a successful decode. Returns the new
state and the HTTP response (body, status). -/
def upload (st : SysState) (decoded : Option Frame) : SysState × (String × Nat) :=
  match decoded with
  | some f => ({ st with slot := publish st.slot f }, ("OK", 200))
  | none => (st, ("Error", 500))

/-- One iteration of the `frame_worker` loop (lines 133-142): take the
pending frame if present and run `process_frame` on it, else sleep. The
Bool is whether the worker thread survives the iteration: `process_frame`
is called outside any try/except, so an uncaught estimator exception
propagates and terminates the thread. -/
def workerStep (st : SysState) (ts : Nat) (est : EstimatorResult) : SysState × Bool :=
  match takeIfPresent st.slot with
  | (some f, rest) =>
      let st1 : SysState :=
        { st with slot := rest, saved := st.saved ++ [(process_frame f ts est).1] }
      match (process_frame f ts est).2 with
      | .error _ => (st1, false)
      | .ok out => ({ st1 with latest := out.latest, alerts := st1.alerts ++ out.alertsSpawned }, true)
  | (none, _) => (st, true)

/-- The result of `cv2.imencode('.jpg', frame)` (line 154). The codec is an
external collaborator; its output is modelled as an injective wrapper of
the source frame. -/
structure JpegBytes where
  src : Frame
deriving DecidableEq

def encodeJpeg (f : Frame) : JpegBytes := ⟨f⟩

/-- The `/latest.jpg` route (lines 151-155): encode the current
`latest_frame` and return it with mimetype `image/jpeg`. -/
def latestRoute (st : SysState) : String × JpegBytes :=
  ("image/jpeg", encodeJpeg st.latest)

/-- A failure inside the body of `send_email`: SMTP transport error, broken
or missing credentials (`EMAIL_USER`/`EMAIL_PASS`/`TO_EMAIL` unset makes
`login`/`send_message` raise), or the attachment read failing. -/
inductive SmtpError where
  | transport : SmtpError
  | badCredentials : SmtpError
  | missingConfig : SmtpError
deriving DecidableEq

inductive EmailOutcome where
  | sent : EmailOutcome
  | failedLogged : SmtpError → EmailOutcome
deriving DecidableEq

/-- `send_email(image_path)` (lines 58-77): the whole body is wrapped in
try/except, so any failure becomes a logged outcome and the function always
returns normally (outer `Except.error` would model an uncaught exception,
which never occurs). -/
def send_email (transport : Except SmtpError Unit) : Except Unit EmailOutcome :=
  match transport with
  | .ok _ => .ok .sent
  | .error e => .ok (.failedLogged e)

/-- A failure inside the try block of `send_sms`: Twilio transport error or
bad/missing credentials (unset `TWILIO_*` variables make client
construction or `messages.create` raise). -/
inductive TwilioError where
  | transport : TwilioError
  | badCredentials : TwilioError
  | missingConfig : TwilioError
deriving DecidableEq

inductive SmsOutcome where
  | sent : SmsOutcome
  | skippedNotInstalled : SmsOutcome
  | failedLogged : TwilioError → SmsOutcome
deriving DecidableEq

/-- `send_sms()` (lines 79-92): if the Twilio import failed
(`TwilioClient is None`), print a diagnostic and return; otherwise the send
is wrapped in try/except and any failure becomes a logged outcome. The
function always returns normally. -/
def send_sms (twilioInstalled : Bool) (transport : Except TwilioError Unit) :
    Except Unit SmsOutcome :=
  if twilioInstalled then
    match transport with
    | .ok _ => .ok .sent
    | .error e => .ok (.failedLogged e)
  else .ok .skippedNotInstalled

/-- Dispatch of one alert (lines 129-130): the two channels run as
independent threads; each channel's outcome depends only on its own inputs. -/
def dispatchAlert (emailTransport : Except SmtpError Unit) (twilioInstalled : Bool)
    (smsTransport : Except TwilioError Unit) :
    Except Unit EmailOutcome × Except Unit SmsOutcome :=
  (send_email emailTransport, send_sms twilioInstalled smsTransport)

/-- No SMS went out and a diagnostic line was printed. -/
def smsDiagnosedNoSend : SmsOutcome → Bool
  | .sent => false
  | .skippedNotInstalled => true
  | .failedLogged _ => true

/-- The primitive steps executed by the program's threads, for reasoning
about what happens while `frame_lock` is held. -/
inductive Instr where
  | acquire : Instr
  | release : Instr
  | slotLoad : Instr
  | slotStore : Instr
  | latestLoad : Instr
  | latestStore : Instr
  | decodeImage : Instr
  | writeFrameFile : Instr
  | estimatorCall : Instr
  | networkSend : Instr
  | encodeImage : Instr
  | spawnThread : Instr
  | sleepShort : Instr
deriving DecidableEq

/-- The external I/O classes named by the spec's lock invariant: the pose
estimator call, frame persistence, and network alert traffic. -/
def isPipelineIo : Instr → Bool
  | .writeFrameFile => true
  | .estimatorCall => true
  | .networkSend => true
  | _ => false

/-- Step sequence of the `/upload` handler (lines 157-170): decode, then —
only on success — acquire `frame_lock`, store the slot, release. -/
def uploadTrace (decodeOk : Bool) : List Instr :=
  .decodeImage :: (if decodeOk then [.acquire, .slotStore, .release] else [])

/-- Step sequence of `process_frame` (lines 95-130): write the frame file,
call the estimator; on a fault the function is aborted by the exception; on
no pose, store `latest_frame`; on a pose, store `latest_frame` and, if
hands-up, start the two alert threads. All of it runs with no lock held. -/
def processFrameTrace (est : EstimatorResult) : List Instr :=
  [.writeFrameFile, .estimatorCall] ++
    match est with
    | .fault => []
    | .notFound => [.latestStore]
    | .found p => .latestStore :: (if hands_up p then [.spawnThread, .spawnThread] else [])

/-- Step sequence of one `frame_worker` iteration (lines 135-142): check the
slot; if occupied, acquire `frame_lock`, copy and clear the slot, release,
then run `process_frame`; otherwise sleep. -/
def workerCycleTrace (slotOccupied : Bool) (est : EstimatorResult) : List Instr :=
  if slotOccupied then
    [.slotLoad, .acquire, .slotLoad, .slotStore, .release] ++ processFrameTrace est
  else [.slotLoad, .sleepShort]

/-- Step sequence of a `send_email` thread (lines 58-77): SMTP traffic,
never touching `frame_lock`. -/
def emailThreadTrace : List Instr := [.networkSend]

/-- Step sequence of a `send_sms` thread (lines 79-92): Twilio traffic when
the client is installed, nothing otherwise; never touching `frame_lock`. -/
def smsThreadTrace (twilioInstalled : Bool) : List Instr :=
  if twilioInstalled then [.networkSend] else []

/-- Step sequence of the `/latest.jpg` handler (lines 151-155). -/
def latestRouteTrace : List Instr := [.latestLoad, .encodeImage]

/-- Checks that no pipeline I/O instruction runs while the lock depth is
positive. -/
def noIoUnderLock : List Instr → Nat → Bool
  | [], _ => true
  | i :: rest, d =>
    if i = .acquire then noIoUnderLock rest (d + 1)
    else if i = .release then noIoUnderLock rest (d - 1)
    else (!(isPipelineIo i) || d == 0) && noIoUnderLock rest d

/-- Checks that every instruction run while the lock is held is an
in-memory frame slot operation. -/
def lockHeldOnlySlotOps : List Instr → Nat → Bool
  | [], _ => true
  | i :: rest, d =>
    if i = .acquire then lockHeldOnlySlotOps rest (d + 1)
    else if i = .release then lockHeldOnlySlotOps rest (d - 1)
    else (d == 0 || (decide (i = Instr.slotLoad) || decide (i = Instr.slotStore)))
      && lockHeldOnlySlotOps rest d

/-! Concrete sample inputs used in counterexamples and witnesses. -/

def sampleFrame1 : Frame := ⟨2, 2, 3, [1], []⟩

def sampleFrame2 : Frame := ⟨2, 2, 3, [9], []⟩

/-- A pose with both wrists well above both shoulders. -/
def poseUp : Pose := ⟨⟨0, 1/10, 1⟩, ⟨0, 1/10, 1⟩, ⟨0, 3/10, 1⟩, ⟨0, 3/10, 1⟩⟩

/-- A pose with both wrists below both shoulders. -/
def poseDown : Pose := ⟨⟨0, 35/100, 1⟩, ⟨0, 35/100, 1⟩, ⟨0, 3/10, 1⟩, ⟨0, 3/10, 1⟩⟩

theorem hands_up_poseUp_eval : hands_up poseUp = true := by
  norm_num [hands_up, poseUp, ratAbs_eq_abs, abs_of_nonneg]

theorem hands_up_poseDown_eval : hands_up poseDown = false := by
  norm_num [hands_up, poseDown, ratAbs_eq_abs, abs_of_nonneg]

/-- Claim C1: for every pose with the four required landmarks, `hands_up`
is true iff both sides are raised, a side being raised iff
`wrist.y + 0.2 * |shoulder.y - wrist.y| < shoulder.y`; in particular it is
true for shoulders at y=0.30 with wrists at y=0.10, still true for
shoulders at y=0.30 with wrists at y=0.28, and false when the left side is
raised but the right wrist (y=0.35) is below the right shoulder (y=0.30). -/
theorem hands_up_spec :
    (∀ p : Pose,
      hands_up p = true ↔
        (p.left_wrist.y + 2/10 * |p.left_shoulder.y - p.left_wrist.y| < p.left_shoulder.y ∧
         p.right_wrist.y + 2/10 * |p.right_shoulder.y - p.right_wrist.y| < p.right_shoulder.y))
    ∧ hands_up ⟨⟨0, 1/10, 1⟩, ⟨0, 1/10, 1⟩, ⟨0, 3/10, 1⟩, ⟨0, 3/10, 1⟩⟩ = true
    ∧ hands_up ⟨⟨0, 28/100, 1⟩, ⟨0, 28/100, 1⟩, ⟨0, 3/10, 1⟩, ⟨0, 3/10, 1⟩⟩ = true
    ∧ hands_up ⟨⟨0, 1/10, 1⟩, ⟨0, 35/100, 1⟩, ⟨0, 3/10, 1⟩, ⟨0, 3/10, 1⟩⟩ = false := by
  refine ⟨fun p => ?_, ?_, ?_, ?_⟩
  · simp [hands_up, ratAbs_eq_abs]
  · norm_num [hands_up, ratAbs_eq_abs, abs_of_nonneg]
  · norm_num [hands_up, ratAbs_eq_abs, abs_of_nonneg]
  · norm_num [hands_up, ratAbs_eq_abs, abs_of_nonneg]

/-- Claim C2: `publish` always succeeds and unconditionally replaces any
pending unconsumed frame, so after any nonempty sequence of publishes only
the most recent frame is retrievable; `takeIfPresent` returns the pending
frame and clears the slot, or reports empty; and the `/upload` route
publishes the decoded frame this way and answers OK. -/
theorem frame_slot_spec :
    (∀ (s : Option Frame) (f : Frame), publish s f = some f)
    ∧ (∀ (s : Option Frame) (l : List Frame) (f : Frame),
        List.foldl publish s (l ++ [f]) = some f)
    ∧ (∀ f : Frame, takeIfPresent (some f) = (some f, none))
    ∧ takeIfPresent (none : Option Frame) = (none, none)
    ∧ (∀ (st : SysState) (f : Frame),
        (upload st (some f)).1.slot = some f ∧ (upload st (some f)).2 = ("OK", 200)) := by
  refine ⟨fun _ _ => rfl, fun s l f => ?_, fun _ => rfl, rfl, fun _ _ => ⟨rfl, rfl⟩⟩
  rw [List.foldl_append]
  rfl

/-- Claim C3, counterexample: with a frame pending, a worker cycle in which
the estimator raises does NOT leave the worker running — the uncaught
exception terminates the worker thread, contradicting the claim that a
fault is treated like a "not found" cycle with the worker continuing. -/
theorem estimator_fault_kills_worker :
    (workerStep ⟨some sampleFrame1, sampleFrame2, [], []⟩ 5 .fault).2 = false := rfl

/-- Claim C3, amended: on an estimator fault the frame is dropped without
retry (the slot was cleared and the frame had already been written to the
upload folder), the latest frame store and alert log are untouched, and the
worker thread terminates instead of continuing to the next cycle. -/
theorem estimator_fault_drops_frame_and_stops_worker :
    ∀ (st : SysState) (f : Frame) (ts : Nat), st.slot = some f →
      workerStep st ts .fault =
        ({ st with slot := none, saved := st.saved ++ [(ts, f)] }, false) := by
  intro st f ts h
  simp [workerStep, takeIfPresent, h, process_frame]

theorem estimator_fault_drops_frame_and_stops_worker_witness :
    workerStep ⟨some sampleFrame1, sampleFrame2, [], []⟩ 5 .fault =
      (⟨none, sampleFrame2, [(5, sampleFrame1)], []⟩, false) :=
  estimator_fault_drops_frame_and_stops_worker
    ⟨some sampleFrame1, sampleFrame2, [], []⟩ sampleFrame1 5 rfl

/-- Claim C4: in a worker cycle where the estimator reports "not found",
the unmodified raw frame (no skeleton overlay) is stored into the latest
frame store, the heuristic is not evaluated, no alert is dispatched, and
the worker continues. -/
theorem no_pose_stores_raw_frame :
    ∀ (st : SysState) (f : Frame) (ts : Nat), st.slot = some f →
      (process_frame f ts .notFound).2 = .ok ⟨f, none, []⟩ ∧
      workerStep st ts .notFound =
        ({ st with slot := none, saved := st.saved ++ [(ts, f)], latest := f }, true) := by
  intro st f ts h
  refine ⟨rfl, ?_⟩
  simp [workerStep, takeIfPresent, h, process_frame]

theorem no_pose_stores_raw_frame_witness :
    (process_frame sampleFrame1 5 .notFound).2 = .ok ⟨sampleFrame1, none, []⟩ ∧
    workerStep ⟨some sampleFrame1, sampleFrame2, [], []⟩ 5 .notFound =
      (⟨none, sampleFrame1, [(5, sampleFrame1)], []⟩, true) :=
  no_pose_stores_raw_frame ⟨some sampleFrame1, sampleFrame2, [], []⟩ sampleFrame1 5 rfl

/-- Claim C5, counterexample: two frames are ingested and decoded
successfully before the worker runs; after the worker's cycle the write log
contains only the second frame and the slot is empty, so the first decoded
ingested frame is never written to the upload directory. -/
theorem overwritten_frame_never_saved :
    (workerStep ((upload ((upload initState (some sampleFrame1)).1)
        (some sampleFrame2)).1) 5 .notFound).1.saved = [(5, sampleFrame2)] ∧
    (workerStep ((upload ((upload initState (some sampleFrame1)).1)
        (some sampleFrame2)).1) 5 .notFound).1.slot = none ∧
    sampleFrame1 ≠ sampleFrame2 := by
  refine ⟨rfl, rfl, ?_⟩
  decide

/-- Claim C5, amended: every frame the worker actually takes from the slot
is written to the upload directory as a timestamped image file, independent
of the estimator or heuristic outcome — but ingested frames that are
overwritten in the slot before the worker takes them are never written. -/
theorem taken_frames_always_saved :
    ∀ (st : SysState) (f : Frame) (ts : Nat) (est : EstimatorResult), st.slot = some f →
      (ts, f) ∈ (workerStep st ts est).1.saved := by
  intro st f ts est h
  rcases est with _ | _ | p <;>
    simp [workerStep, takeIfPresent, h, process_frame]

theorem taken_frames_always_saved_witness :
    (5, sampleFrame1) ∈
      (workerStep ⟨some sampleFrame1, sampleFrame2, [], []⟩ 5 .notFound).1.saved :=
  taken_frames_always_saved ⟨some sampleFrame1, sampleFrame2, [], []⟩ sampleFrame1 5 .notFound rfl

/-- Claim C6: an upload whose bytes fail to decode returns status 500 and
leaves all pipeline state untouched — in particular the frame slot and the
latest frame store are unchanged. -/
theorem decode_failure_isolated :
    ∀ st : SysState,
      upload st none = (st, ("Error", 500)) ∧
      (upload st none).1.slot = st.slot ∧
      (upload st none).1.latest = st.latest :=
  fun _ => ⟨rfl, rfl, rfl⟩

/-- Claim C7: whatever the prior state (no deduplication, batching or rate
limiting), a cycle whose pose satisfies the heuristic appends exactly one
fresh email task and one fresh SMS task to the spawned-thread log and the
worker completes its cycle without waiting on them (channel outcomes are
not even inputs of `workerStep`); a cycle with a non-qualifying pose or
with no pose spawns nothing. -/
theorem hands_up_always_spawns_alert :
    ∀ (st : SysState) (f : Frame) (ts : Nat) (p : Pose), st.slot = some f →
      (hands_up p = true →
        workerStep st ts (.found p) =
          ({ st with
              slot := none
              saved := st.saved ++ [(ts, f)]
              latest := drawSkeleton f p
              alerts := st.alerts ++ [.email ts, .sms] }, true)) ∧
      (hands_up p = false →
        workerStep st ts (.found p) =
          ({ st with
              slot := none
              saved := st.saved ++ [(ts, f)]
              latest := drawSkeleton f p }, true)) ∧
      workerStep st ts .notFound =
        ({ st with slot := none, saved := st.saved ++ [(ts, f)], latest := f }, true) := by
  intro st f ts p h
  refine ⟨fun hup => ?_, fun hdown => ?_, ?_⟩
  · simp [workerStep, takeIfPresent, h, process_frame, hup]
  · simp [workerStep, takeIfPresent, h, process_frame, hdown]
  · simp [workerStep, takeIfPresent, h, process_frame]

theorem hands_up_always_spawns_alert_witness :
    workerStep ⟨some sampleFrame1, sampleFrame2, [], []⟩ 5 (.found poseUp) =
      (⟨none, drawSkeleton sampleFrame1 poseUp, [(5, sampleFrame1)],
        [.email 5, .sms]⟩, true) ∧
    workerStep ⟨some sampleFrame1, sampleFrame2, [], []⟩ 5 (.found poseDown) =
      (⟨none, drawSkeleton sampleFrame1 poseDown, [(5, sampleFrame1)], []⟩, true) :=
  ⟨(hands_up_always_spawns_alert ⟨some sampleFrame1, sampleFrame2, [], []⟩
      sampleFrame1 5 poseUp rfl).1 hands_up_poseUp_eval,
   (hands_up_always_spawns_alert ⟨some sampleFrame1, sampleFrame2, [], []⟩
      sampleFrame1 5 poseDown rfl).2.1 hands_up_poseDown_eval⟩

/-- Claim C8: each channel's failure is caught and turned into a logged
outcome instead of an exception; an SMS provider that is not installed is
skipped with a diagnostic, a failing or unconfigured one yields a logged
diagnostic with no message sent; and in a dispatch, each channel's outcome
is independent of the other channel's inputs. -/
theorem alert_channel_isolation :
    (∀ e : SmtpError, send_email (.error e) = .ok (.failedLogged e))
    ∧ send_email (.ok ()) = .ok .sent
    ∧ (∀ e : TwilioError, send_sms true (.error e) = .ok (.failedLogged e))
    ∧ (∀ t : Except TwilioError Unit, send_sms false t = .ok .skippedNotInstalled)
    ∧ smsDiagnosedNoSend .skippedNotInstalled = true
    ∧ (∀ e : TwilioError, smsDiagnosedNoSend (.failedLogged e) = true)
    ∧ (∀ (eT : Except SmtpError Unit) (inst : Bool) (sT sT' : Except TwilioError Unit),
        (dispatchAlert eT inst sT).1 = (dispatchAlert eT inst sT').1)
    ∧ (∀ (eT eT' : Except SmtpError Unit) (inst : Bool) (sT : Except TwilioError Unit),
        (dispatchAlert eT inst sT).2 = (dispatchAlert eT' inst sT).2) :=
  ⟨fun _ => rfl, rfl, fun _ => rfl, fun _ => rfl, rfl, fun _ => rfl,
   fun _ _ _ _ => rfl, fun _ _ _ _ => rfl⟩

/-- Claim C9: in the step sequences of the upload handler, a worker cycle,
the alert threads and the latest-frame handler, no pipeline I/O (estimator
call, frame file write, network alert traffic) runs while `frame_lock` is
held, and every instruction run under the lock is an in-memory frame slot
operation. -/
theorem no_io_while_locked :
    (∀ d : Bool,
      noIoUnderLock (uploadTrace d) 0 = true ∧
      lockHeldOnlySlotOps (uploadTrace d) 0 = true)
    ∧ (∀ (occ : Bool) (est : EstimatorResult),
        noIoUnderLock (workerCycleTrace occ est) 0 = true ∧
        lockHeldOnlySlotOps (workerCycleTrace occ est) 0 = true)
    ∧ noIoUnderLock emailThreadTrace 0 = true
    ∧ (∀ inst : Bool, noIoUnderLock (smsThreadTrace inst) 0 = true)
    ∧ noIoUnderLock latestRouteTrace 0 = true := by
  refine ⟨fun d => ?_, fun occ est => ?_, by decide, fun inst => ?_, by decide⟩
  · cases d <;> exact ⟨rfl, rfl⟩
  · cases occ
    · exact ⟨rfl, rfl⟩
    · rcases est with _ | _ | p
      · exact ⟨rfl, rfl⟩
      · exact ⟨rfl, rfl⟩
      · cases hup : hands_up p
        · simp only [workerCycleTrace, processFrameTrace, hup]
          decide
        · simp only [workerCycleTrace, processFrameTrace, hup]
          decide
  · cases inst <;> rfl

/-- Claim C10: before any frame has been processed, the latest-frame route
returns (without failing) a JPEG encoding of the startup value of the
latest frame store, which is an all-black zero-filled 640x480 3-channel
frame with no overlay. -/
theorem latest_before_first_frame :
    latestRoute initState = ("image/jpeg", encodeJpeg zeroFrame) ∧
    initState.latest = zeroFrame ∧
    zeroFrame.height = 480 ∧ zeroFrame.width = 640 ∧ zeroFrame.channels = 3 ∧
    zeroFrame.data = List.replicate (480 * 640 * 3) 0 ∧
    zeroFrame.overlays = ([] : List Pose) :=
  ⟨rfl, rfl, rfl, rfl, rfl, rfl, rfl⟩

end Espcam
